import Mathlib

/-!
Verification of the Riksdagen MCP server (`mcp_riksdagen_server.py`).

The development shallowly embeds the Python module:
* `RiksdagenSearchParams` and `to_query_params` (query-parameter model),
* `search_documents` (archive client error translation),
* `riksdagen_search` (search tool: normalization, truncation, hit-count parsing),
* `riksdagen_create_url_list` (URL batch synthesis).

Python dictionaries keep insertion order, so query mappings and raw documents
are embedded as association lists in insertion order.  Python `int(str)` is
embedded by `pyIntParse` (returning `none` where Python raises `ValueError`),
and list slicing `xs[:limit]` by `pySlice`.  Raised exceptions are embedded as
`Except.error` values of type `PyError`.
-/

namespace Riksdagen

/-- A Python exception raised by the embedded code: `exception` models the bare
`Exception` raised by the archive client, `valueError` models `ValueError`. -/
inductive PyError where
  | exception (message : String)
  | valueError (message : String)
  deriving DecidableEq, Repr

/-! ## Python primitives used by the source -/

/-- The characters Python `str.strip()` / `int()` treat as whitespace (ASCII part). -/
def isPySpace (c : Char) : Bool :=
  c == ' ' || c == '\t' || c == '\n' || c == '\r' || c.toNat == 11 || c.toNat == 12

/-- Digit run of a Python integer literal, after its first digit: single
underscores are permitted between digits only. Returns `none` on any other
character, as Python `int()` raises `ValueError` there. -/
def pyDigitsCore : List Char → Nat → Option Nat
  | [], acc => some acc
  | '_' :: c :: rest, acc =>
    if c.isDigit then pyDigitsCore rest (acc * 10 + (c.toNat - 48)) else none
  | ['_'], _ => none
  | c :: rest, acc =>
    if c.isDigit then pyDigitsCore rest (acc * 10 + (c.toNat - 48)) else none

/-- Parse a nonempty run of ASCII digits (with Python's underscore rule). -/
def pyParseDigits : List Char → Option Nat
  | [] => none
  | c :: rest => if c.isDigit then pyDigitsCore rest (c.toNat - 48) else none

/-- Embedding of Python `int(s)` for `str` arguments: strip surrounding
whitespace, accept one optional sign, then a nonempty digit run.  `none`
models Python raising `ValueError`. -/
def pyIntParse (s : String) : Option Int :=
  let cs := ((s.toList.dropWhile isPySpace).reverse.dropWhile isPySpace).reverse
  match cs with
  | '+' :: rest => (pyParseDigits rest).map Int.ofNat
  | '-' :: rest => (pyParseDigits rest).map (fun n => -(Int.ofNat n))
  | rest => (pyParseDigits rest).map Int.ofNat

/-- Lowercase one character as Python `str.lower()` does on the ASCII range
(the formats handled by this server are ASCII). -/
def pyCharLower (c : Char) : Char :=
  if 'A' ≤ c && c ≤ 'Z' then Char.ofNat (c.toNat + 32) else c

/-- Embedding of Python `s.lower()` (ASCII range). -/
def pyLower (s : String) : String := String.mk (s.toList.map pyCharLower)

/-- Embedding of the Python slice `xs[:limit]` for an `int` bound `limit`:
a nonnegative bound keeps the first `limit` elements (clamped to the length),
a negative bound drops the last `-limit` elements (clamped to the empty list). -/
def pySlice (xs : List α) (limit : Int) : List α :=
  if limit < 0 then xs.take (xs.length - (-limit).toNat)
  else xs.take limit.toNat

/-! ## Query parameter model (`RiksdagenSearchParams`, source lines 15-50) -/

/-- `RiksdagenSearchParams` dataclass: all fields in declaration order, three
of them defaulted to non-`None` strings. -/
structure RiksdagenSearchParams where
  sok : Option String := none
  doktyp : Option String := none
  rm : Option String := none
  from_date : Option String := none
  tom : Option String := none
  ts : Option String := none
  bet : Option String := none
  tempbet : Option String := none
  nr : Option String := none
  org : Option String := none
  iid : Option String := none
  webbtv : Option String := none
  talare : Option String := none
  exakt : Option String := none
  planering : Option String := none
  sort : String := "rel"
  sortorder : String := "desc"
  rapport : Option String := none
  utformat : String := "json"
  a : Option String := none
  deriving DecidableEq, Repr

/-- `self.__dict__.items()` of a `RiksdagenSearchParams` instance: the
(field name, field value) pairs in declaration order, which is the order the
dataclass `__init__` assigns them.  The three always-set `str` fields appear
as `some` values. -/
def RiksdagenSearchParams.fieldsList (p : RiksdagenSearchParams) :
    List (String × Option String) :=
  [("sok", p.sok), ("doktyp", p.doktyp), ("rm", p.rm), ("from_date", p.from_date),
   ("tom", p.tom), ("ts", p.ts), ("bet", p.bet), ("tempbet", p.tempbet),
   ("nr", p.nr), ("org", p.org), ("iid", p.iid), ("webbtv", p.webbtv),
   ("talare", p.talare), ("exakt", p.exakt), ("planering", p.planering),
   ("sort", some p.sort), ("sortorder", some p.sortorder), ("rapport", p.rapport),
   ("utformat", some p.utformat), ("a", p.a)]

/-- The field names of `RiksdagenSearchParams`, in declaration order. -/
def fieldNames : List String :=
  ["sok", "doktyp", "rm", "from_date", "tom", "ts", "bet", "tempbet", "nr",
   "org", "iid", "webbtv", "talare", "exakt", "planering", "sort", "sortorder",
   "rapport", "utformat", "a"]

/-- The key under which a field is serialized: `from_date` is renamed to
`from`, every other field keeps its own name (source lines 45-49). -/
def canonKey (name : String) : String :=
  if name = "from_date" then "from" else name

/-- `to_query_params` (source lines 40-50): fold over `self.__dict__.items()`,
skipping `None` values and renaming `from_date` to `from`; dict insertion is
embedded as appending to the association list. -/
def RiksdagenSearchParams.to_query_params (p : RiksdagenSearchParams) :
    List (String × String) :=
  p.fieldsList.foldl (fun params kv =>
    match kv.2 with
    | none => params
    | some value =>
      if kv.1 = "from_date" then params ++ [("from", value)]
      else params ++ [(kv.1, value)]) []

/-! ## Raw payloads and normalized documents -/

/-- A raw document entry from the upstream JSON: a string-keyed object whose
values the source reads as strings, kept in insertion order. -/
abbrev RawDoc := List (String × String)

/-- Python `doc.get(key, "")`: first binding of `key`, or `""` if absent. -/
def RawDoc.get : RawDoc → String → String
  | [], _ => ""
  | (k, v) :: rest, key => if k = key then v else RawDoc.get rest key

/-- The `dokumentlista` object of the upstream payload: hit-count field
(`@traffar`) and document array (`dokument`), each possibly absent. -/
structure Dokumentlista where
  traffar : Option String
  dokument : Option (List RawDoc)
  deriving DecidableEq, Repr

/-- The parsed JSON body returned by the upstream API; the `dokumentlista`
key itself may be absent. -/
structure RawSearchResult where
  dokumentlista : Option Dokumentlista
  deriving DecidableEq, Repr

/-- The fixed-shape document record built by `riksdagen_search`
(source lines 144-156). -/
structure NormalizedDocument where
  id : String
  title : String
  type : String
  document_type : String
  date : String
  published : String
  parliamentary_year : String
  organization : String
  text_url : String
  html_url : String
  status : String
  deriving DecidableEq, Repr

/-- The response dictionary of `riksdagen_search` (source lines 159-162). -/
structure SearchResponse where
  total_hits : Int
  documents : List NormalizedDocument
  deriving DecidableEq, Repr

/-- Map one raw document entry to a `NormalizedDocument` with default-empty
fallbacks, exactly the `doc.get(...)` calls of source lines 145-155. -/
def normalizeDoc (doc : RawDoc) : NormalizedDocument :=
  { id := doc.get "id"
    title := doc.get "titel"
    type := doc.get "typ"
    document_type := doc.get "doktyp"
    date := doc.get "datum"
    published := doc.get "publicerad"
    parliamentary_year := doc.get "rm"
    organization := doc.get "organ"
    text_url := doc.get "dokument_url_text"
    html_url := doc.get "dokument_url_html"
    status := doc.get "status" }

/-! ## Archive client (`RiksdagenClient.search_documents`, source lines 61-70) -/

/-- Outcome of the outbound GET issued by the HTTP library: either a
transport-level failure (connection refused, DNS failure, timeout — all
`httpx.HTTPError` subclasses) with a description, or a response with a status
code and a parsed JSON body. -/
inductive HttpOutcome where
  | transportError (message : String)
  | response (status : Nat) (body : RawSearchResult)
  deriving DecidableEq, Repr

/-- The message text prepended by the archive client when wrapping an HTTP
failure (source line 70). -/
def searchErrorText : String := "Error searching Riksdagen documents: "

/-- 2xx success test used by the HTTP library's `raise_for_status`. -/
def isSuccessStatus (status : Nat) : Bool := 200 ≤ status && status ≤ 299

/-- Description carried by the HTTP library's status-code exception; modelled
from the external library: a deterministic description of the status. -/
def statusErrorDetail (status : Nat) : String :=
  "HTTP status error " ++ toString status ++
    " for url https://data.riksdagen.se/dokumentlista/"

/-- `search_documents` (source lines 61-70): issue the GET; on a transport
error or a non-2xx status (`raise_for_status`), both caught as
`httpx.HTTPError`, raise one plain `Exception` carrying the cause in its
message; on success return the parsed JSON body unmodified. -/
def search_documents (outcome : HttpOutcome) : Except PyError RawSearchResult :=
  match outcome with
  | .transportError message => .error (.exception (searchErrorText ++ message))
  | .response status body =>
    if isSuccessStatus status then .ok body
    else .error (.exception (searchErrorText ++ statusErrorDetail status))

/-! ## Search tool (`riksdagen_search`, source lines 98-164) -/

/-- `results.get("dokumentlista", {}).get("@traffar", "0")` (source line 160). -/
def traffarString (results : RawSearchResult) : String :=
  match results.dokumentlista with
  | none => "0"
  | some dl => dl.traffar.getD "0"

/-- The document-extraction loop of `riksdagen_search` (source lines 139-156):
if both containers are present, normalize the slice `raw_docs[:limit]` in
upstream order; otherwise the document list stays empty. -/
def extractDocuments (results : RawSearchResult) (limit : Int) :
    List NormalizedDocument :=
  match results.dokumentlista with
  | some dl =>
    match dl.dokument with
    | some raw_docs => (pySlice raw_docs limit).map normalizeDoc
    | none => []
  | none => []

/-- `riksdagen_search` (source lines 98-164), parameterized by the outcome of
the archive client's HTTP call: propagate the client's exception untouched,
otherwise build the documents list and parse the hit count with `int(...)`,
which raises `ValueError` on an unparsable string. -/
def riksdagen_search (outcome : HttpOutcome) (limit : Int) :
    Except PyError SearchResponse :=
  match search_documents outcome with
  | .error e => .error e
  | .ok results =>
    let documents := extractDocuments results limit
    match pyIntParse (traffarString results) with
    | some n => .ok { total_hits := n, documents := documents }
    | none =>
      .error (.valueError
        ("invalid literal for int() with base 10: " ++ traffarString results))

/-! ## URL batch synthesis (`riksdagen_create_url_list`, source lines 196-236) -/

/-- One `{id, url}` entry of the URL batch (source lines 227-230). -/
structure UrlEntry where
  id : String
  url : String
  deriving DecidableEq, Repr

/-- The return dictionary of `riksdagen_create_url_list`
(source lines 232-236). -/
structure UrlBatchResult where
  urls : List UrlEntry
  format : String
  count : Nat
  deriving DecidableEq, Repr

/-- `riksdagen_create_url_list` (source lines 196-236): lowercase the format,
reject anything outside {json, html, text} with a `ValueError` before building
any URL, then emit one templated URL per ID in input order.  The source
branches on `format_extension == "json"` but both branches build the same
URL; the branch is kept here as in the source. -/
def riksdagen_create_url_list (document_ids : List String)
    (format : String := "json") : Except PyError UrlBatchResult :=
  let format_extension := pyLower format
  if format_extension ∉ ["json", "html", "text"] then
    .error (.valueError "Invalid format. Supported formats are: json, html, text")
  else
    let urls := document_ids.map (fun doc_id =>
      let url :=
        if format_extension = "json" then
          "https://data.riksdagen.se/dokument/" ++ doc_id ++ "." ++ format_extension
        else
          "https://data.riksdagen.se/dokument/" ++ doc_id ++ "." ++ format_extension
      { id := doc_id, url := url : UrlEntry })
    .ok { urls := urls, format := format_extension, count := urls.length }

/-! ## Helper lemmas: query parameter serialization -/

/-- The effect of the serialization loop on one field, as an optional output
pair: a `none` value produces nothing, a `some` value produces the value
under the field's canonical key. -/
def serializeField (kv : String × Option String) : Option (String × String) :=
  kv.2.map (fun v => (canonKey kv.1, v))

lemma foldl_serialize_eq (l : List (String × Option String))
    (acc : List (String × String)) :
    l.foldl (fun params kv =>
      match kv.2 with
      | none => params
      | some value =>
        if kv.1 = "from_date" then params ++ [("from", value)]
        else params ++ [(kv.1, value)]) acc = acc ++ l.filterMap serializeField := by
  induction l generalizing acc with
  | nil => simp
  | cons kv rest ih =>
    obtain ⟨name, ov⟩ := kv
    cases ov with
    | none => simpa [serializeField] using ih acc
    | some v =>
      by_cases h : name = "from_date" <;>
        simp [serializeField, canonKey, h, ih, List.filterMap_cons]

lemma to_query_params_eq (p : RiksdagenSearchParams) :
    p.to_query_params = p.fieldsList.filterMap serializeField := by
  unfold RiksdagenSearchParams.to_query_params
  rw [foldl_serialize_eq]
  simp

lemma mem_tqp_of_field_some {p : RiksdagenSearchParams} {name : String}
    {v : String} (h : (name, some v) ∈ p.fieldsList) :
    (canonKey name, v) ∈ p.to_query_params := by
  rw [to_query_params_eq]
  exact List.mem_filterMap.mpr ⟨(name, some v), h, rfl⟩

lemma tqp_mem_elim {p : RiksdagenSearchParams} {k s : String}
    (h : (k, s) ∈ p.to_query_params) :
    ∃ name, (name, some s) ∈ p.fieldsList ∧ k = canonKey name := by
  rw [to_query_params_eq] at h
  obtain ⟨⟨name, ov⟩, hmem, hstep⟩ := List.mem_filterMap.mp h
  cases ov with
  | none => exact absurd hstep (by simp [serializeField])
  | some v =>
    have hv : v = s := by
      have := congrArg (fun x => (Option.map Prod.snd x).getD s) hstep
      simpa [serializeField] using this
    have hk : canonKey name = k := by
      have := congrArg (fun x => (Option.map Prod.fst x).getD k) hstep
      simpa [serializeField] using this
    exact ⟨name, hv ▸ hmem, hk.symm⟩

lemma fieldsList_map_fst (p : RiksdagenSearchParams) :
    p.fieldsList.map Prod.fst = fieldNames := rfl

lemma name_mem_fieldNames {p : RiksdagenSearchParams} {name : String}
    {ov : Option String} (h : (name, ov) ∈ p.fieldsList) : name ∈ fieldNames := by
  have := List.mem_map_of_mem Prod.fst h
  rwa [fieldsList_map_fst] at this

lemma fieldNames_nodup : fieldNames.Nodup := by decide

lemma canonKey_image_nodup : (fieldNames.map canonKey).Nodup := by decide

lemma canonKey_inj {a b : String} (ha : a ∈ fieldNames) (hb : b ∈ fieldNames)
    (h : canonKey a = canonKey b) : a = b :=
  List.inj_on_of_nodup_map canonKey_image_nodup ha hb h

lemma nodup_keys_val_eq {α β : Type} :
    ∀ {l : List (α × β)}, (l.map Prod.fst).Nodup →
      ∀ {a : α} {b c : β}, (a, b) ∈ l → (a, c) ∈ l → b = c := by
  intro l
  induction l with
  | nil => intro _ a b c hb; cases hb
  | cons hd tl ih =>
    intro hnd a b c hb hc
    have hhead : hd.1 ∉ tl.map Prod.fst := (List.nodup_cons.mp (by simpa using hnd)).1
    have htl : (tl.map Prod.fst).Nodup := (List.nodup_cons.mp (by simpa using hnd)).2
    rcases List.mem_cons.mp hb with hb | hb <;> rcases List.mem_cons.mp hc with hc | hc
    · exact congrArg Prod.snd (hb.trans hc.symm)
    · exfalso; apply hhead
      have ha : (a, c).1 ∈ tl.map Prod.fst := List.mem_map_of_mem Prod.fst hc
      rw [← hb]
      simpa using ha
    · exfalso; apply hhead
      have ha : (a, b).1 ∈ tl.map Prod.fst := List.mem_map_of_mem Prod.fst hb
      rw [← hc]
      simpa using ha
    · exact ih htl hb hc

lemma fields_val_eq {p : RiksdagenSearchParams} {name : String}
    {ov1 ov2 : Option String} (h1 : (name, ov1) ∈ p.fieldsList)
    (h2 : (name, ov2) ∈ p.fieldsList) : ov1 = ov2 :=
  nodup_keys_val_eq (by rw [fieldsList_map_fst]; exact fieldNames_nodup) h1 h2

lemma not_mem_tqp_of_field_none {p : RiksdagenSearchParams} {name : String}
    (hmem : (name, none) ∈ p.fieldsList) (s : String) :
    (canonKey name, s) ∉ p.to_query_params := by
  intro h
  obtain ⟨name2, hmem2, hk⟩ := tqp_mem_elim h
  have heq : name2 = name :=
    canonKey_inj (name_mem_fieldNames hmem2) (name_mem_fieldNames hmem) hk.symm
  subst heq
  exact Option.noConfusion (fields_val_eq hmem hmem2)

lemma canonKey_ne_from_date : ∀ name ∈ fieldNames, canonKey name ≠ "from_date" := by
  decide

lemma canonKey_to_from : ∀ name ∈ fieldNames, canonKey name = "from" →
    name = "from_date" := by
  decide

lemma canonKey_id_of_ne : ∀ name ∈ fieldNames, name ≠ "from_date" →
    canonKey name = name := by
  decide

/-! ## Helper lemmas: search pipeline -/

lemma pySlice_natCast {α : Type} (xs : List α) (n : Nat) :
    pySlice xs (n : Int) = xs.take n := by
  simp [pySlice]

lemma pySlice_neg {α : Type} (xs : List α) {limit : Int} (h : limit < 0) :
    pySlice xs limit = xs.take (xs.length - (-limit).toNat) := by
  simp [pySlice, h]

lemma extractDocuments_some {body : RawSearchResult} {dl : Dokumentlista}
    {docs : List RawDoc} (limit : Int) (hb : body.dokumentlista = some dl)
    (hd : dl.dokument = some docs) :
    extractDocuments body limit = (pySlice docs limit).map normalizeDoc := by
  simp [extractDocuments, hb, hd]

lemma extractDocuments_no_dl {body : RawSearchResult} (limit : Int)
    (hb : body.dokumentlista = none) : extractDocuments body limit = [] := by
  simp [extractDocuments, hb]

lemma extractDocuments_no_docs {body : RawSearchResult} {dl : Dokumentlista}
    (limit : Int) (hb : body.dokumentlista = some dl)
    (hd : dl.dokument = none) : extractDocuments body limit = [] := by
  simp [extractDocuments, hb, hd]

lemma traffarString_no_dl {body : RawSearchResult}
    (hb : body.dokumentlista = none) : traffarString body = "0" := by
  simp [traffarString, hb]

lemma traffarString_no_traffar {body : RawSearchResult} {dl : Dokumentlista}
    (hb : body.dokumentlista = some dl) (ht : dl.traffar = none) :
    traffarString body = "0" := by
  simp [traffarString, hb, ht]

lemma traffarString_some {body : RawSearchResult} {dl : Dokumentlista}
    {s : String} (hb : body.dokumentlista = some dl) (ht : dl.traffar = some s) :
    traffarString body = s := by
  simp [traffarString, hb, ht]

lemma search_documents_200 (body : RawSearchResult) :
    search_documents (.response 200 body) = .ok body := rfl

lemma riksdagen_search_parse_ok {body : RawSearchResult} {t : Int} (limit : Int)
    (ht : pyIntParse (traffarString body) = some t) :
    riksdagen_search (.response 200 body) limit =
      .ok { total_hits := t, documents := extractDocuments body limit } := by
  have hred : riksdagen_search (.response 200 body) limit =
      (match pyIntParse (traffarString body) with
       | some n => .ok { total_hits := n, documents := extractDocuments body limit }
       | none =>
         .error (.valueError
           ("invalid literal for int() with base 10: " ++ traffarString body))) := rfl
  rw [hred, ht]

lemma riksdagen_search_parse_fail {body : RawSearchResult} (limit : Int)
    (ht : pyIntParse (traffarString body) = none) :
    riksdagen_search (.response 200 body) limit =
      .error (.valueError
        ("invalid literal for int() with base 10: " ++ traffarString body)) := by
  have hred : riksdagen_search (.response 200 body) limit =
      (match pyIntParse (traffarString body) with
       | some n => .ok { total_hits := n, documents := extractDocuments body limit }
       | none =>
         .error (.valueError
           ("invalid literal for int() with base 10: " ++ traffarString body))) := rfl
  rw [hred, ht]

lemma pyIntParse_zero : pyIntParse "0" = some 0 := rfl

/-- The eleven upstream attribute names read by the normalization step
(source lines 145-155). -/
def expectedDocKeys : List String :=
  ["id", "titel", "typ", "doktyp", "datum", "publicerad", "rm", "organ",
   "dokument_url_text", "dokument_url_html", "status"]

lemma rawDoc_get_of_not_key {d : RawDoc} {key : String}
    (h : ∀ kv ∈ d, kv.1 ≠ key) : d.get key = "" := by
  induction d with
  | nil => rfl
  | cons kv rest ih =>
    obtain ⟨k, v⟩ := kv
    have hk : k ≠ key := h (k, v) (List.Mem.head _)
    simp only [RawDoc.get, if_neg hk]
    exact ih (fun kv hkv => h kv (List.Mem.tail _ hkv))

/-! ## Claim theorems -/

/-- C1 (counterexample): the claim that hit-count coercion never raises is
false — on a successful response whose `@traffar` field holds the unparsable
string `"not-a-number"`, `riksdagen_search` raises a `ValueError` from
`int(...)` instead of degrading to 0. -/
theorem C1_counterexample :
    riksdagen_search
        (.response 200 ⟨some ⟨some "not-a-number", some []⟩⟩) 10 =
      .error (.valueError "invalid literal for int() with base 10: not-a-number") :=
  rfl

/-- C1 (amended): `riksdagen_search` computes `total_hits` by coercing the raw
payload's `@traffar` field to an integer; the result is 0 whenever the field
or its containing `dokumentlista` object is missing (the default string `"0"`
is then parsed), and equals the parsed value whenever the field parses as an
integer — but when the field is present and not parsable as an integer the
coercion raises a `ValueError`; it does not degrade to 0. -/
theorem C1_total_hits (body : RawSearchResult) (limit : Int) :
    (body.dokumentlista = none →
      riksdagen_search (.response 200 body) limit =
        .ok { total_hits := 0, documents := extractDocuments body limit })
    ∧ (∀ dl, body.dokumentlista = some dl → dl.traffar = none →
      riksdagen_search (.response 200 body) limit =
        .ok { total_hits := 0, documents := extractDocuments body limit })
    ∧ (∀ dl s n, body.dokumentlista = some dl → dl.traffar = some s →
        pyIntParse s = some n →
      riksdagen_search (.response 200 body) limit =
        .ok { total_hits := n, documents := extractDocuments body limit })
    ∧ (∀ dl s, body.dokumentlista = some dl → dl.traffar = some s →
        pyIntParse s = none →
      riksdagen_search (.response 200 body) limit =
        .error (.valueError ("invalid literal for int() with base 10: " ++ s))) := by
  refine ⟨?_, ?_, ?_, ?_⟩
  · intro hb
    exact riksdagen_search_parse_ok limit
      (by rw [traffarString_no_dl hb]; exact pyIntParse_zero)
  · intro dl hb ht
    exact riksdagen_search_parse_ok limit
      (by rw [traffarString_no_traffar hb ht]; exact pyIntParse_zero)
  · intro dl s n hb ht hp
    exact riksdagen_search_parse_ok limit (by rw [traffarString_some hb ht]; exact hp)
  · intro dl s hb ht hp
    have h := riksdagen_search_parse_fail limit
      (by rw [traffarString_some hb ht]; exact hp)
    rwa [traffarString_some hb ht] at h

/-- C1 (witness): instances of the amended claim — a payload with no
`dokumentlista` yields `total_hits = 0`, and a payload with `@traffar = "42"`
yields `total_hits = 42`. -/
theorem C1_witness :
    riksdagen_search (.response 200 ⟨none⟩) 10 =
      .ok { total_hits := 0, documents := extractDocuments ⟨none⟩ 10 }
    ∧ riksdagen_search (.response 200 ⟨some ⟨some "42", none⟩⟩) 10 =
      .ok { total_hits := 42,
            documents := extractDocuments ⟨some ⟨some "42", none⟩⟩ 10 } :=
  ⟨(C1_total_hits ⟨none⟩ 10).1 rfl,
   (C1_total_hits ⟨some ⟨some "42", none⟩⟩ 10).2.2.1
     ⟨some "42", none⟩ "42" 42 rfl rfl rfl⟩

/-- C2 (counterexample): the claim that an empty-string field is never
serialized is false — the serialization check is `is not None`, so a
`RiksdagenSearchParams` whose `sok` field holds `""` serializes the pair
`("sok", "")` into the query mapping. -/
theorem C2_counterexample :
    ("sok", "") ∈
      (RiksdagenSearchParams.to_query_params { sok := some "" }) := by
  decide

/-- C2 (amended): `to_query_params` includes a field if and only if its value
is not `None`: a `None`-valued field never appears in the output mapping, a
field holding any string value — including the empty string — always appears
keyed by its canonical upstream name, and every output pair comes from some
non-`None` field. -/
theorem C2_field_serialized_iff_not_none (p : RiksdagenSearchParams)
    (name : String) (ov : Option String) (h : (name, ov) ∈ p.fieldsList) :
    ((∃ s, ov = some s ∧ (canonKey name, s) ∈ p.to_query_params) ↔ ov ≠ none)
    ∧ (ov = none → ∀ s, (canonKey name, s) ∉ p.to_query_params)
    ∧ (∀ k s, (k, s) ∈ p.to_query_params →
        ∃ name2, (name2, some s) ∈ p.fieldsList ∧ k = canonKey name2) := by
  refine ⟨⟨?_, ?_⟩, ?_, ?_⟩
  · rintro ⟨s, hs, -⟩
    simp [hs]
  · intro hne
    obtain ⟨s, hs⟩ := Option.ne_none_iff_exists'.mp hne
    exact ⟨s, hs, mem_tqp_of_field_some (hs ▸ h)⟩
  · intro hnone s
    exact not_mem_tqp_of_field_none (hnone ▸ h) s
  · intro k s hk
    exact tqp_mem_elim hk

/-- C2 (witness): the amended claim at a concrete instance — a `sok` field
holding `"budget"` is serialized under its canonical key. -/
theorem C2_witness :
    ∃ s, (some "budget" : Option String) = some s ∧
      (canonKey "sok", s) ∈
        (RiksdagenSearchParams.to_query_params { sok := some "budget" }) :=
  ((C2_field_serialized_iff_not_none { sok := some "budget" } "sok"
      (some "budget") (by simp [RiksdagenSearchParams.fieldsList])).1).mpr
    (by simp)

/-- C3: the key `"from_date"` never occurs in the built query mapping; whenever
the `from_date` field is set the mapping contains `"from"` bound to its value,
whenever it is unset the key `"from"` is absent, and no field other than
`from_date` is renamed by the canonical-key map. -/
theorem C3_from_date_renaming (p : RiksdagenSearchParams) :
    (∀ s, ("from_date", s) ∉ p.to_query_params)
    ∧ (∀ v, p.from_date = some v → ("from", v) ∈ p.to_query_params)
    ∧ (p.from_date = none → ∀ s, ("from", s) ∉ p.to_query_params)
    ∧ (∀ name, name ∈ fieldNames → name ≠ "from_date" → canonKey name = name) := by
  have hfd : ("from_date", p.from_date) ∈ p.fieldsList := by
    simp [RiksdagenSearchParams.fieldsList]
  refine ⟨?_, ?_, ?_, canonKey_id_of_ne⟩
  · intro s h
    obtain ⟨name, hmem, hk⟩ := tqp_mem_elim h
    exact canonKey_ne_from_date name (name_mem_fieldNames hmem) hk.symm
  · intro v hv
    have hmem : ("from_date", some v) ∈ p.fieldsList := hv ▸ hfd
    have h := mem_tqp_of_field_some hmem
    simpa [canonKey] using h
  · intro hnone s h
    obtain ⟨name, hmem, hk⟩ := tqp_mem_elim h
    have hname : name = "from_date" :=
      canonKey_to_from name (name_mem_fieldNames hmem) hk.symm
    subst hname
    rw [hnone] at hfd
    exact Option.noConfusion (fields_val_eq hfd hmem)

/-- C3 (witness): a set `from_date` field appears under the key `"from"`. -/
theorem C3_witness :
    ("from", "2020-01-01") ∈
      (RiksdagenSearchParams.to_query_params { from_date := some "2020-01-01" }) :=
  (C3_from_date_renaming { from_date := some "2020-01-01" }).2.1 "2020-01-01" rfl

/-- C4: for a `RiksdagenSearchParams` constructed with all-default fields, the
built query mapping is exactly `sort ↦ "rel"`, `sortorder ↦ "desc"`,
`utformat ↦ "json"`, with no other keys. -/
theorem C4_default_query_params :
    (RiksdagenSearchParams.to_query_params {}) =
      [("sort", "rel"), ("sortorder", "desc"), ("utformat", "json")] := rfl

/-- C5: for a successful response whose hit-count parses and whose document
container is present, `riksdagen_search` with a (nonnegative) limit returns the
first `min limit n` raw entries normalized in upstream order with no
re-sorting, while `total_hits` is the parsed hit-count independent of `limit`;
if the container (or its parent, covered by `extractDocuments_no_dl`) is
absent, the returned document sequence is empty. -/
theorem C5_limit_truncation (body : RawSearchResult) (dl : Dokumentlista)
    (t : Int) (limit : Nat) (hb : body.dokumentlista = some dl)
    (ht : pyIntParse (traffarString body) = some t) :
    (∀ docs, dl.dokument = some docs →
      riksdagen_search (.response 200 body) (limit : Int) =
        .ok { total_hits := t, documents := (docs.take limit).map normalizeDoc }
      ∧ ((docs.take limit).map normalizeDoc).length = min limit docs.length)
    ∧ (dl.dokument = none →
      riksdagen_search (.response 200 body) (limit : Int) =
        .ok { total_hits := t, documents := [] }) := by
  constructor
  · intro docs hd
    constructor
    · rw [riksdagen_search_parse_ok (limit : Int) ht,
        extractDocuments_some (limit : Int) hb hd, pySlice_natCast]
    · simp
  · intro hd
    rw [riksdagen_search_parse_ok (limit : Int) ht,
      extractDocuments_no_docs (limit : Int) hb hd]

/-- A raw document entry used by concrete search witnesses. -/
def docW (n : Nat) : RawDoc := [("id", toString n)]

/-- Fifteen raw document entries, in upstream order. -/
def docsW : List RawDoc := (List.range 15).map docW

/-- A raw payload with hit-count string "42" and 15 document entries. -/
def bodyW : RawSearchResult := ⟨some ⟨some "42", some docsW⟩⟩

/-- C5 (witness): on a payload with hit-count `"42"` and 15 entries, searching
with `limit = 10` yields `total_hits = 42` and exactly the first 10 normalized
documents (so `total_hits` exceeds the number of documents returned). -/
theorem C5_witness :
    (riksdagen_search (.response 200 bodyW) ((10 : Nat) : Int) =
      .ok { total_hits := 42, documents := (docsW.take 10).map normalizeDoc }
      ∧ ((docsW.take 10).map normalizeDoc).length = min 10 docsW.length)
    ∧ min 10 docsW.length = 10 :=
  ⟨(C5_limit_truncation bodyW ⟨some "42", some docsW⟩ 42 10 rfl rfl).1 docsW rfl,
   by decide⟩

/-- C6: normalizing a raw document entry never fails due to missing fields —
for an entry carrying none of the eleven expected attributes, every one of the
eleven string fields of the resulting `NormalizedDocument` is the empty
string. -/
theorem C6_normalize_missing_fields (d : RawDoc)
    (h : ∀ kv ∈ d, kv.1 ∉ expectedDocKeys) :
    normalizeDoc d =
      { id := "", title := "", type := "", document_type := "", date := "",
        published := "", parliamentary_year := "", organization := "",
        text_url := "", html_url := "", status := "" } := by
  have hget : ∀ key ∈ expectedDocKeys, d.get key = "" := fun key hkey =>
    rawDoc_get_of_not_key (fun kv hkv hk => h kv hkv (hk ▸ hkey))
  unfold normalizeDoc
  rw [hget "id" (by decide), hget "titel" (by decide), hget "typ" (by decide),
    hget "doktyp" (by decide), hget "datum" (by decide),
    hget "publicerad" (by decide), hget "rm" (by decide),
    hget "organ" (by decide), hget "dokument_url_text" (by decide),
    hget "dokument_url_html" (by decide), hget "status" (by decide)]

/-- C6 (witness): an entry whose only attribute is unexpected normalizes to
the all-empty document. -/
theorem C6_witness :
    normalizeDoc [("foo", "bar")] =
      { id := "", title := "", type := "", document_type := "", date := "",
        published := "", parliamentary_year := "", organization := "",
        text_url := "", html_url := "", status := "" } :=
  C6_normalize_missing_fields [("foo", "bar")] (by decide)

/-- C7: for every list of document IDs and every format whose lowercasing is
not one of "json", "html", "text", `riksdagen_create_url_list` fails with the
`ValueError` raised by its validation step before processing any ID — no URL
entries and no partial result are produced. -/
theorem C7_bad_format_rejected (document_ids : List String) (format : String)
    (h : pyLower format ∉ ["json", "html", "text"]) :
    riksdagen_create_url_list document_ids format =
      .error (.valueError
        "Invalid format. Supported formats are: json, html, text") := by
  simp only [riksdagen_create_url_list, if_pos h]

/-- C7 (witness): `riksdagen_create_url_list ["X"] "pdf"` fails with the
validation error. -/
theorem C7_witness :
    riksdagen_create_url_list ["X"] "pdf" =
      .error (.valueError
        "Invalid format. Supported formats are: json, html, text") :=
  C7_bad_format_rejected ["X"] "pdf" (by decide)

/-- C8: for every list of document IDs and every format whose lowercasing is
one of "json", "html", "text", `riksdagen_create_url_list` returns one entry
per input ID in input order with no deduplication, each URL built from the
single fixed template `https://data.riksdagen.se/dokument/{id}.{extension}`
with the lowercased extension — the same template for all three formats —
plus the lowercased format string and a count equal to the number of IDs. -/
theorem C8_url_batch (document_ids : List String) (format : String)
    (h : pyLower format ∈ ["json", "html", "text"]) :
    riksdagen_create_url_list document_ids format =
      .ok { urls := document_ids.map (fun doc_id =>
              { id := doc_id,
                url := "https://data.riksdagen.se/dokument/" ++ doc_id ++ "."
                  ++ pyLower format }),
            format := pyLower format,
            count := document_ids.length } := by
  simp only [riksdagen_create_url_list, if_neg (not_not_intro h), ite_self,
    List.length_map]

/-- C8 (witness): `riksdagen_create_url_list ["H8C1", "H8C2"] "HTML"` returns
format `"html"`, count 2, and the two templated `.html` URLs in input order. -/
theorem C8_witness :
    riksdagen_create_url_list ["H8C1", "H8C2"] "HTML" =
      .ok { urls := [⟨"H8C1", "https://data.riksdagen.se/dokument/H8C1.html"⟩,
                     ⟨"H8C2", "https://data.riksdagen.se/dokument/H8C2.html"⟩],
            format := "html", count := 2 } :=
  C8_url_batch ["H8C1", "H8C2"] "HTML" (by decide)

/-- C9: every transport-level failure and every non-2xx HTTP status is
surfaced by `search_documents` as the single `PyError.exception` kind, carrying
the underlying cause in its message — never as distinct error variants — and
`riksdagen_search` propagates any such error to its caller verbatim, returning
no documents. -/
theorem C9_single_error_kind (limit : Int) :
    (∀ m, search_documents (.transportError m) =
      .error (.exception (searchErrorText ++ m)))
    ∧ (∀ status body, isSuccessStatus status = false →
      search_documents (.response status body) =
        .error (.exception (searchErrorText ++ statusErrorDetail status)))
    ∧ (∀ outcome e, search_documents outcome = .error e →
      riksdagen_search outcome limit = .error e) := by
  refine ⟨fun m => rfl, ?_, ?_⟩
  · intro status body h
    simp [search_documents, h]
  · intro outcome e h
    unfold riksdagen_search
    rw [h]

/-- C9 (witness): a connection-refused transport failure and a 404 status both
become the same error kind, and the 404 one propagates unchanged through
`riksdagen_search`. -/
theorem C9_witness :
    search_documents (.transportError "connection refused") =
      .error (.exception (searchErrorText ++ "connection refused"))
    ∧ riksdagen_search (.response 404 ⟨none⟩) 10 =
      .error (.exception (searchErrorText ++ statusErrorDetail 404)) :=
  ⟨(C9_single_error_kind 10).1 "connection refused",
   (C9_single_error_kind 10).2.2 (.response 404 ⟨none⟩) _
     ((C9_single_error_kind 10).2.1 404 ⟨none⟩ (by decide))⟩

/-- C10: with a populated document container of `n` entries and a parsable
hit-count, calling `riksdagen_search` with `limit = 0` returns an empty
documents list (with `total_hits` still parsed from the payload), and calling
it with a negative `limit` returns the first `n - |limit|` entries (the
trailing `|limit|` entries removed, clamped at zero): truncation follows
Python slice semantics, not a bound of `max(limit, 0)`. -/
theorem C10_slice_semantics (body : RawSearchResult) (dl : Dokumentlista)
    (docs : List RawDoc) (t : Int) (limit : Int)
    (hb : body.dokumentlista = some dl) (hd : dl.dokument = some docs)
    (ht : pyIntParse (traffarString body) = some t) :
    (limit = 0 →
      riksdagen_search (.response 200 body) limit =
        .ok { total_hits := t, documents := [] })
    ∧ (limit < 0 →
      riksdagen_search (.response 200 body) limit =
        .ok { total_hits := t,
              documents :=
                (docs.take (docs.length - (-limit).toNat)).map normalizeDoc }) := by
  constructor
  · intro h0
    subst h0
    rw [riksdagen_search_parse_ok 0 ht, extractDocuments_some 0 hb hd]
    have : pySlice docs (0 : Int) = [] := by
      have := pySlice_natCast docs 0
      simpa using this
    rw [this]
    simp
  · intro hneg
    rw [riksdagen_search_parse_ok limit ht, extractDocuments_some limit hb hd,
      pySlice_neg docs hneg]

/-- C10 (witness): on the 15-entry payload with hit-count `"42"`,
`limit = 0` yields no documents and `limit = -2` yields the first 13. -/
theorem C10_witness :
    (riksdagen_search (.response 200 bodyW) 0 =
      .ok { total_hits := 42, documents := [] })
    ∧ (riksdagen_search (.response 200 bodyW) (-2) =
      .ok { total_hits := 42,
            documents :=
              (docsW.take (docsW.length - ((2 : Int)).toNat)).map normalizeDoc }) :=
  ⟨(C10_slice_semantics bodyW ⟨some "42", some docsW⟩ docsW 42 0
      rfl rfl rfl).1 rfl,
   (C10_slice_semantics bodyW ⟨some "42", some docsW⟩ docsW 42 (-2)
      rfl rfl rfl).2 (by decide)⟩

end Riksdagen
